import Mathlib

/-!
Shallow embedding of the spatial scoring engine of the SGHMastercard
repository (parcel-locker location scoring), together with theorems that
settle the specification claims about it.

Conventions used throughout:
* Python floats are modelled as real numbers; exact rational arithmetic
  (means, score averaging) is modelled over the rationals.
* A pandas `GeoDataFrame` is modelled as a column-name list together with a
  list of rows; the per-call `distance` column that `count_objects` /
  `find_containing` assign is kept as a separate optional field so that the
  state written by a query is explicit.
* A shapely `Point` is a pair of coordinates; in every dataset of the
  repository points are built as `Point(lon, lat)`, so `x` is the longitude
  and `y` the latitude.
* Fallible pandas operations (column lookup by a key that is not a column
  raises `KeyError`) are modelled with `Except`.
-/

namespace SGH

/-- A 2-D coordinate pair as held by a shapely `Point`: `x` first, `y` second. -/
structure Pt where
  x : ℝ
  y : ℝ

/-- Embeds `np.radians`: degrees to radians, `x * pi / 180`. -/
noncomputable def radiansOf (deg : ℝ) : ℝ := deg * (Real.pi / 180)

/-- Embeds `np.arctan2 y x`: the angle of the point `(x, y)`, in `(-pi, pi]`. -/
noncomputable def arctan2 (y x : ℝ) : ℝ :=
  if 0 < x then Real.arctan (y / x)
  else if x < 0 then
    (if 0 ≤ y then Real.arctan (y / x) + Real.pi else Real.arctan (y / x) - Real.pi)
  else if 0 < y then Real.pi / 2
  else if y < 0 then -(Real.pi / 2)
  else 0

/-- The intermediate quantity `a` of `GeoObject.haversine` from
`src/Processing/GeoObject.py` lines 50-62:
`a = sin(delta_phi/2)**2 + cos(phi1)*cos(phi2)*sin(delta_lambda/2)**2`
with `phi1 = radians(lat1)`, `phi2 = radians(lat2)`,
`delta_phi = radians(lat2 - lat1)`, `delta_lambda = radians(lon2 - lon1)`. -/
noncomputable def havA (lat1 lon1 lat2 lon2 : ℝ) : ℝ :=
  Real.sin (radiansOf (lat2 - lat1) / 2) ^ 2 +
    Real.cos (radiansOf lat1) * Real.cos (radiansOf lat2) *
      Real.sin (radiansOf (lon2 - lon1) / 2) ^ 2

/-- Embeds `GeoObject.haversine(lat1, lon1, lat2, lon2)` from
`src/Processing/GeoObject.py` lines 50-62: `R * c` with `R = 6371000` and
`c = 2 * np.arctan2(np.sqrt(a), np.sqrt(1 - a))`. -/
noncomputable def haversine (lat1 lon1 lat2 lon2 : ℝ) : ℝ :=
  6371000 *
    (2 * arctan2 (Real.sqrt (havA lat1 lon1 lat2 lon2))
      (Real.sqrt (1 - havA lat1 lon1 lat2 lon2)))

lemma arctan2_zero_one : arctan2 0 1 = 0 := by
  simp [arctan2, Real.arctan_zero]

lemma radiansOf_zero : radiansOf 0 = 0 := by simp [radiansOf]

lemma havA_self (lat lon : ℝ) : havA lat lon lat lon = 0 := by
  simp [havA, radiansOf]

/-- The haversine distance from any coordinate pair to itself is zero. -/
lemma haversine_self (lat lon : ℝ) : haversine lat lon lat lon = 0 := by
  simp [haversine, havA_self, arctan2_zero_one]

lemma havA_comm (lat1 lon1 lat2 lon2 : ℝ) :
    havA lat1 lon1 lat2 lon2 = havA lat2 lon2 lat1 lon1 := by
  unfold havA
  have h1 : radiansOf (lat1 - lat2) / 2 = -(radiansOf (lat2 - lat1) / 2) := by
    simp [radiansOf]; ring
  have h2 : radiansOf (lon1 - lon2) / 2 = -(radiansOf (lon2 - lon1) / 2) := by
    simp [radiansOf]; ring
  rw [h1, h2, Real.sin_neg, Real.sin_neg]
  ring

/-- The haversine distance is symmetric in its two coordinate pairs. -/
lemma haversine_comm (lat1 lon1 lat2 lon2 : ℝ) :
    haversine lat1 lon1 lat2 lon2 = haversine lat2 lon2 lat1 lon1 := by
  unfold haversine
  rw [havA_comm lat2 lon2 lat1 lon1]

/-- A dynamically-typed pandas cell value: a string or a number. -/
inductive Val where
  | str (s : String)
  | num (q : ℚ)
deriving DecidableEq

/-- One row of a loaded vector layer: the precomputed centroid coordinates
(the `center` column written by `GeoObject.process`, `x` = longitude,
`y` = latitude in EPSG:4326 data) and the attribute map of the row. -/
structure LayerRow where
  cx : ℝ
  cy : ℝ
  attrs : String → Val

/-- A loaded `GeoObject` table (`self.gdf`): `cols` is the pandas column list
of the loaded table (attribute columns together with the bookkeeping columns
`geometry`/`center`/`distance` when present), `rows` its rows, and
`distance` the per-call distance column that `count_objects` assigns
(`none` until the first count query runs). -/
structure GeoLayer where
  cols : List String
  rows : List LayerRow
  distance : Option (List ℝ)

/-- Embeds the attribute-filter loop of `GeoObject.count_objects`
(`src/Processing/GeoObject.py` lines 41-43):
`for key, value in attr_filters.items(): filtered_gdf = filtered_gdf[filtered_gdf[key] == value]`.
Looking a key up that is not a column of the table raises a pandas
`KeyError`, modelled as `Except.error key`. -/
def applyFilters (cols : List String) :
    List (String × Val) → List LayerRow → Except String (List LayerRow)
  | [], rows => .ok rows
  | (k, v) :: rest, rows =>
      if k ∈ cols then
        applyFilters cols rest (rows.filter (fun r => decide (r.attrs k = v)))
      else .error k

/-- The distance series that `count_objects` computes and assigns to
`self.gdf['distance']` (`src/Processing/GeoObject.py` line 35): note the
code passes `center.x` (a longitude) as the `lat1` argument of `haversine`
and `center.y` (a latitude) as `lon1`, and likewise for the centroids. -/
noncomputable def layerDistances (g : GeoLayer) (center : Pt) : List ℝ :=
  g.rows.map (fun r => haversine center.x center.y r.cx r.cy)

/-- The rows retained by the radius filter of `count_objects`
(`src/Processing/GeoObject.py` line 39): distance at most `radius`. -/
noncomputable def withinRadius (g : GeoLayer) (center : Pt) (radius : ℝ) : List LayerRow :=
  g.rows.filter (fun r => decide (haversine center.x center.y r.cx r.cy ≤ radius))

/-- Embeds `GeoObject.count_objects(center, radius, attr_filters)` from
`src/Processing/GeoObject.py` lines 31-48.  Returns the count (or the
pandas `KeyError` raised by an unknown filter key) together with the table
state after the call, whose `distance` column has been (re)assigned. -/
noncomputable def count_objects (g : GeoLayer) (center : Pt) (radius : ℝ)
    (attr_filters : Option (List (String × Val))) : Except String ℕ × GeoLayer :=
  let g' : GeoLayer := { g with distance := some (layerDistances g center) }
  let filtered := withinRadius g center radius
  match attr_filters with
  | none => (.ok filtered.length, g')
  | some fs => ((applyFilters g.cols fs filtered).map List.length, g')

/-- Modelled from the spec: brute-force count of the features whose true
great-circle (haversine, Earth radius 6,371,000 m) distance from the center
to the feature centroid is at most `radius`, with latitudes and longitudes
in their correct geographic roles (a point's `y` is its latitude and `x` its
longitude).  This is the behaviour the spec ascribes to `count_objects`;
the code instead passes `center.x` as the latitude argument. -/
noncomputable def specCountCorrectRoles (g : GeoLayer) (center : Pt) (radius : ℝ) : ℕ :=
  (g.rows.filter (fun r => decide (haversine center.y center.x r.cy r.cx ≤ radius))).length

/-- Outcome of constructing a `GeoObject`: either a loaded table or a
process exit with the given status code. -/
inductive LoadOutcome where
  | loaded (g : GeoLayer)
  | exited (code : ℕ)

/-- Embeds `GeoObject.__init__` from `src/Processing/GeoObject.py` lines
16-26: `gpd.read_file(path)` either yields a table (modelled by the
`Option` argument, `some` with the parsed layer, centroids precomputed by
`process`) or raises `pyogrio.errors.DataSourceError` (`none`), in which
case the code prints `Could not find file: {path}` and calls `exit(0)`. -/
def geoObjectInit (readResult : Option GeoLayer) : LoadOutcome :=
  match readResult with
  | none => .exited 0
  | some g => .loaded g

/-- One cell of the population grid: centroid coordinates (`x` = longitude,
`y` = latitude) and the resident count of the `RES` column. -/
structure PopCell where
  cx : ℝ
  cy : ℝ
  res : ℝ

/-- The loaded `Population` table (`self.df`): its grid cells and the
per-call `distance` column that `find_containing` assigns. -/
structure PopGrid where
  cells : List PopCell
  distance : Option (List ℝ)

/-- Embeds Python `int(x)` on a float: truncation toward zero. -/
noncomputable def pyInt (x : ℝ) : ℤ := if 0 ≤ x then ⌊x⌋ else ⌈x⌉

/-- Embeds `Population.find_containing(center, radius)` from
`src/Processing/Population.py` lines 51-57: assigns the haversine distance
column (again passing `center.x` as `lat1`) and returns the cells with
distance at most `radius`, together with the table state after the call. -/
noncomputable def find_containing (p : PopGrid) (center : Pt) (radius : ℝ) :
    List PopCell × PopGrid :=
  (p.cells.filter (fun c => decide (haversine center.x center.y c.cx c.cy ≤ radius)),
   { p with distance := some (p.cells.map (fun c => haversine center.x center.y c.cx c.cy)) })

/-- The cells that `calculate_population` matches: distance at most
`int(radius)` (the radius truncated toward zero before the comparison). -/
noncomputable def matchedCells (p : PopGrid) (center : Pt) (radius : ℝ) : List PopCell :=
  p.cells.filter (fun c => decide (haversine center.x center.y c.cx c.cy ≤ ((pyInt radius : ℤ) : ℝ)))

/-- Embeds `Population.calculate_population(center, radius)` from
`src/Processing/Population.py` lines 59-70: filters cells through
`find_containing(center, int(radius))`; with no matched cell returns the
sentinel `1000`, otherwise `(circle_area / square_area) * circle_sum` with
`circle_area = pi * (radius/1000)**2`, `square_area = 1 * len(matched)` and
`circle_sum = sum(matched['RES'])`. -/
noncomputable def calculate_population (p : PopGrid) (center : Pt) (radius : ℝ) :
    ℝ × PopGrid :=
  if (find_containing p center ((pyInt radius : ℤ) : ℝ)).1.length = 0 then
    (1000, (find_containing p center ((pyInt radius : ℤ) : ℝ)).2)
  else
    (Real.pi * (radius / 1000) ^ 2 /
        (1 * ((find_containing p center ((pyInt radius : ℤ) : ℝ)).1.length : ℝ)) *
      ((find_containing p center ((pyInt radius : ℤ) : ℝ)).1.map PopCell.res).sum,
     (find_containing p center ((pyInt radius : ℤ) : ℝ)).2)

/-- Euclidean distance in raw coordinate space, the metric of the sklearn
`KDTree` built over the locker coordinates. -/
noncomputable def euclid (p q : Pt) : ℝ := Real.sqrt ((p.x - q.x) ^ 2 + (p.y - q.y) ^ 2)

/-- The `(distance, index)` pairs of all indexed coordinates, sorted by
ascending distance to the query point — the enumeration underlying the
modelled KDTree query. -/
noncomputable def sortedPairs (coords : List Pt) (p : Pt) : List (ℝ × ℕ) :=
  (coords.enum.map (fun ic => (euclid p ic.2, ic.1))).mergeSort
    (fun a b => decide (a.1 ≤ b.1))

/-- Modelled sklearn `KDTree.query(point, k)` over the coordinate list the
tree was built from: with `1 ≤ k ≤ N` it returns the `k` nearest
`(distance, index)` pairs in ascending distance order; with `k > N` or
`k = 0` sklearn raises a `ValueError`, modelled as `none`. -/
noncomputable def kdQuery (coords : List Pt) (p : Pt) (k : ℕ) : Option (List (ℝ × ℕ)) :=
  if 1 ≤ k ∧ k ≤ coords.length then some ((sortedPairs coords p).take k)
  else none

/-- Embeds `ScoreCalculator._get_nearest_points(lon, lat, k)` from
`src/score_calculator.py` lines 65-68: queries the tree with
`k = min(k, len(self.coords))`. -/
noncomputable def scGetNearestPoints (coords : List Pt) (lon lat : ℝ) (k : ℕ) :
    Option (List (ℝ × ℕ)) :=
  kdQuery coords ⟨lon, lat⟩ (min k coords.length)

/-- Embeds `ScoreCalculator._get_nearest_points(lon, lat, k)` from
`src/parcel_analysis/core.py` lines 144-158: queries the tree with `k`
unclamped. -/
noncomputable def coreGetNearestPoints (coords : List Pt) (lon lat : ℝ) (k : ℕ) :
    Option (List (ℝ × ℕ)) :=
  kdQuery coords ⟨lon, lat⟩ k

/-- One locker record row, read either numerically (flag columns) or as a
string (the `opening_hours` column), mirroring pandas dynamic typing. -/
structure LockerRow where
  numv : String → ℚ
  strv : String → String

/-- A locker record table: its pandas column list and its rows. -/
structure RecTable where
  cols : List String
  rows : List LockerRow

/-- Mean of a numeric column, `gdf[k].mean()`. -/
def meanNum (t : RecTable) (k : String) : ℚ :=
  (t.rows.map (fun r => r.numv k)).sum / (t.rows.length : ℚ)

/-- Mean of the boolean series `gdf['opening_hours'] == '24/7'`. -/
def mean247 (t : RecTable) : ℚ :=
  ((t.rows.filter (fun r => r.strv "opening_hours" == "24/7")).length : ℚ) /
    (t.rows.length : ℚ)

/-- Embeds `ScoreCalculator.calculate_accessibility_score(gdf)` from
`src/score_calculator.py` lines 85-99: empty table yields `0.0`; otherwise
adds the mean of `location_247` (falling back to the indicator mean of
`opening_hours == '24/7'`) when that column is present, then the mean of
`easy_access_zone` when present, and divides by `max(1, count)`.  This
version never looks at `payment_available`. -/
def scCalculateAccessibilityScore (t : RecTable) : ℚ :=
  if t.rows.length = 0 then 0
  else
    let s1 : ℚ × ℕ :=
      if "location_247" ∈ t.cols then (meanNum t "location_247", 1)
      else if "opening_hours" ∈ t.cols then (mean247 t, 1)
      else (0, 0)
    let s2 : ℚ × ℕ :=
      if "easy_access_zone" ∈ t.cols then (s1.1 + meanNum t "easy_access_zone", s1.2 + 1)
      else s1
    s2.1 / ((max 1 s2.2 : ℕ) : ℚ)

/-- Embeds `LockerAnalysis.calculate_accessibility_score(gdf)` from
`src/parcel_analysis/analysis.py` lines 21-55: as the score-calculator
version but with a third step adding the mean of `payment_available` when
that column is present. -/
def paCalculateAccessibilityScore (t : RecTable) : ℚ :=
  if t.rows.length = 0 then 0
  else
    let s1 : ℚ × ℕ :=
      if "location_247" ∈ t.cols then (meanNum t "location_247", 1)
      else if "opening_hours" ∈ t.cols then (mean247 t, 1)
      else (0, 0)
    let s2 : ℚ × ℕ :=
      if "easy_access_zone" ∈ t.cols then (s1.1 + meanNum t "easy_access_zone", s1.2 + 1)
      else s1
    let s3 : ℚ × ℕ :=
      if "payment_available" ∈ t.cols then (s2.1 + meanNum t "payment_available", s2.2 + 1)
      else s2
    s3.1 / ((max 1 s3.2 : ℕ) : ℚ)

/-- Modelled from the spec: the list of indicator means that are present in
the dataset — the 24/7 flag (the `location_247` mean, with the documented
`opening_hours == '24/7'` fallback), the easy-access flag mean, and the
payment-available mean. -/
def specIndicators (t : RecTable) : List ℚ :=
  (if "location_247" ∈ t.cols then [meanNum t "location_247"]
   else if "opening_hours" ∈ t.cols then [mean247 t] else [])
  ++ (if "easy_access_zone" ∈ t.cols then [meanNum t "easy_access_zone"] else [])
  ++ (if "payment_available" ∈ t.cols then [meanNum t "payment_available"] else [])

/-- Modelled from the spec (claim C6): empty record set yields 0; otherwise
the sum of the means of whichever of the three indicator columns are
present, divided by the number of indicators actually present. -/
def specAccessibilityScore (t : RecTable) : ℚ :=
  if t.rows.length = 0 then 0
  else (specIndicators t).sum / ((specIndicators t).length : ℚ)

/-- The two-indicator variant of the spec formula (24/7 flag and easy-access
flag only), which is what `src/score_calculator.py` actually computes. -/
def specIndicatorsNoPayment (t : RecTable) : List ℚ :=
  (if "location_247" ∈ t.cols then [meanNum t "location_247"]
   else if "opening_hours" ∈ t.cols then [mean247 t] else [])
  ++ (if "easy_access_zone" ∈ t.cols then [meanNum t "easy_access_zone"] else [])

/-- Accessibility per the spec formula restricted to the two indicators the
`score_calculator.py` implementation consults. -/
def specAccessibilityScoreNoPayment (t : RecTable) : ℚ :=
  if t.rows.length = 0 then 0
  else (specIndicatorsNoPayment t).sum / ((specIndicatorsNoPayment t).length : ℚ)

/-- Embeds `ScoreCalculator._calculate_density_score(count, max_count)` from
`src/score_calculator.py` lines 70-73 and `src/parcel_analysis/core.py`
lines 160-173: `normalized = min(count / max_count, 1.0)` followed by the
sigmoid `1 / (1 + exp(-10 * (normalized - 0.5)))`. -/
noncomputable def densityScore (count maxCount : ℕ) : ℝ :=
  1 / (1 + Real.exp (-10 * (min ((count : ℝ) / (maxCount : ℝ)) 1 - 0.5)))

/-- The per-axis grid step of `LocationOptimizer.find_optimal_location`
(`src/parcel_analysis/optimization.py` lines 41-42):
`(hi - lo) / (grid_size - 1)` when `grid_size > 1`, else `0`. -/
noncomputable def gridStep (lo hi : ℝ) (gridSize : ℕ) : ℝ :=
  if 1 < gridSize then (hi - lo) / ((gridSize : ℝ) - 1) else 0

/-- The lattice of candidate cells that `find_optimal_location` evaluates, in
its evaluation order: row-major, latitude index `i` outer, longitude index
`j` inner. -/
noncomputable def gridCells (latMin latMax lonMin lonMax : ℝ) (gridSize : ℕ) :
    List (ℝ × ℝ) :=
  (List.range gridSize).flatMap (fun (i : ℕ) =>
    (List.range gridSize).map (fun (j : ℕ) =>
      (latMin + (i : ℝ) * gridStep latMin latMax gridSize,
       lonMin + (j : ℝ) * gridStep lonMin lonMax gridSize)))

/-- One iteration of the best-score accumulator of `find_optimal_location`
(`src/parcel_analysis/optimization.py` lines 62-64): the strict comparison
`if score > best_score`. -/
noncomputable def bestStep (score : ℝ → ℝ → ℝ) (best : Option (ℝ × ℝ) × ℝ) (c : ℝ × ℝ) :
    Option (ℝ × ℝ) × ℝ :=
  if score c.1 c.2 > best.2 then (some c, score c.1 c.2) else best

/-- Embeds `LocationOptimizer.find_optimal_location` from
`src/parcel_analysis/optimization.py` lines 41-70, abstracted over the
score function (the code receives a `score_calculator` and reads
`calculate_score(...)['overall_score']`): starting from
`best_score = -1`, `best_location = None` it scans the row-major lattice and
keeps the first strictly improving cell.  Returns
`(best_location, best_score)`. -/
noncomputable def findOptimalLocation (score : ℝ → ℝ → ℝ)
    (latMin latMax lonMin lonMax : ℝ) (gridSize : ℕ) : Option (ℝ × ℝ) × ℝ :=
  (gridCells latMin latMax lonMin lonMax gridSize).foldl (bestStep score) (none, -1)

/-! ## Theorems settling the claims -/

lemma applyFilters_error_of_unknown (cols : List String) :
    ∀ (filters : List (String × Val)) (rows : List LayerRow),
      (∃ kv ∈ filters, kv.1 ∉ cols) →
      ∃ k, k ∉ cols ∧ applyFilters cols filters rows = Except.error k := by
  intro filters
  induction filters with
  | nil =>
      intro rows h
      simp at h
  | cons kv rest ih =>
      intro rows h
      obtain ⟨k0, v0⟩ := kv
      by_cases hk : k0 ∈ cols
      · obtain ⟨kv', hmem, hnot⟩ := h
        have hrest : ∃ kv ∈ rest, kv.1 ∉ cols := by
          rcases List.mem_cons.mp hmem with h1 | h1
          · rw [h1] at hnot
            exact absurd hk hnot
          · exact ⟨kv', h1, hnot⟩
        obtain ⟨k, hk1, hk2⟩ := ih _ hrest
        exact ⟨k, hk1, by simpa [applyFilters, hk] using hk2⟩
      · exact ⟨k0, hk, by simp [applyFilters, hk]⟩

lemma arctan2_one_zero : arctan2 1 0 = Real.pi / 2 := by
  unfold arctan2
  norm_num

/-- Value of the code's distance computation on the divergence example:
`haversine(0, 45, 180, 45)` (longitude passed in the latitude role). -/
lemma haversine_code_example : haversine 0 45 180 45 = 6371000 * Real.pi := by
  have hA : havA 0 45 180 45 = 1 := by
    unfold havA
    have h1 : radiansOf (180 - 0) / 2 = Real.pi / 2 := by unfold radiansOf; ring
    have h2 : radiansOf (45 - 45) / 2 = 0 := by unfold radiansOf; ring
    have h3 : radiansOf 0 = 0 := by unfold radiansOf; ring
    have h4 : radiansOf 180 = Real.pi := by unfold radiansOf; ring
    rw [h1, h2, h3, h4, Real.sin_pi_div_two, Real.sin_zero, Real.cos_zero, Real.cos_pi]
    ring
  unfold haversine
  rw [hA]
  norm_num [arctan2_one_zero]
  ring

/-- Value of the true great-circle distance on the divergence example:
`haversine(45, 0, 45, 180)` (latitudes and longitudes in correct roles). -/
lemma haversine_spec_example : haversine 45 0 45 180 = 6371000 * (Real.pi / 2) := by
  have hA : havA 45 0 45 180 = 1 / 2 := by
    unfold havA
    have h1 : radiansOf (45 - 45) / 2 = 0 := by unfold radiansOf; ring
    have h2 : radiansOf (180 - 0) / 2 = Real.pi / 2 := by unfold radiansOf; ring
    have h3 : radiansOf 45 = Real.pi / 4 := by unfold radiansOf; ring
    rw [h1, h2, h3, Real.sin_zero, Real.sin_pi_div_two, Real.cos_pi_div_four]
    have h5 : Real.sqrt 2 * Real.sqrt 2 = 2 := Real.mul_self_sqrt (by norm_num)
    nlinarith [h5]
  have hs : (0 : ℝ) < Real.sqrt (1 / 2) := Real.sqrt_pos.mpr (by norm_num)
  unfold haversine
  rw [hA]
  have h12 : (1 : ℝ) - 1 / 2 = 1 / 2 := by norm_num
  rw [h12]
  unfold arctan2
  rw [if_pos hs, div_self (ne_of_gt hs), Real.arctan_one]
  ring

/-- C1: `count_objects` passes `center.x` (a longitude) as the latitude
argument of `haversine`, so it does not agree with brute-force filtering by
the true great-circle distance.  Layer with one feature centroid at
longitude 180, latitude 45; center at longitude 0, latitude 45; radius
12,742,000 m.  The true distance is `6371000 * pi / 2 ≈ 10,008 km ≤ radius`,
so the spec-side count is 1, but the code computes `6371000 * pi ≈ 20,015 km`
and returns 0. -/
theorem count_objects_swapped_roles_divergence :
    (count_objects ⟨["fclass"], [⟨180, 45, fun _ => Val.str ""⟩], none⟩ ⟨0, 45⟩
        12742000 none).1 = Except.ok 0 ∧
    specCountCorrectRoles ⟨["fclass"], [⟨180, 45, fun _ => Val.str ""⟩], none⟩ ⟨0, 45⟩
        12742000 = 1 := by
  constructor
  · have hgt : ¬ haversine 0 45 180 45 ≤ 12742000 := by
      rw [not_le, haversine_code_example]
      nlinarith [Real.pi_gt_three]
    simp [count_objects, withinRadius, hgt]
  · have hle : haversine 45 0 45 180 ≤ 12742000 := by
      rw [haversine_spec_example]
      nlinarith [Real.pi_le_four]
    simp [specCountCorrectRoles, hle]

/-- C8 counterexample: the two coordinate pairs `(lat 90, lon 0)` and
`(lat 90, lon 90)` are distinct, yet their haversine distance is 0 (both
latitudes sit at the pole, where the longitude term is multiplied by
`cos(pi/2) = 0`).  So zero distance does not imply coincident coordinate
pairs. -/
theorem haversine_zero_distinct_pair_counterexample :
    haversine 90 0 90 90 = 0 ∧ ¬ ((90 : ℝ) = 90 ∧ (0 : ℝ) = 90) := by
  constructor
  · have hA : havA 90 0 90 90 = 0 := by
      unfold havA
      have h1 : radiansOf (90 - 90) / 2 = 0 := by unfold radiansOf; ring
      have h2 : radiansOf 90 = Real.pi / 2 := by unfold radiansOf; ring
      rw [h1, h2, Real.sin_zero, Real.cos_pi_div_two]
      ring
    unfold haversine
    rw [hA]
    norm_num [arctan2_zero_one]
  · norm_num

/-- C8 amended: `haversine p p = 0` for every coordinate pair `p` and
`haversine a b = haversine b a` for all pairs, as claimed; but zero distance
implies coincident coordinate pairs only on the geographically meaningful
domain — both latitudes strictly between -90 and 90 and longitude
difference strictly less than 360 in absolute value (outside it, e.g. at
the poles, distinct pairs can be at distance 0). -/
theorem haversine_metric_properties (lat1 lon1 lat2 lon2 : ℝ) :
    haversine lat1 lon1 lat1 lon1 = 0 ∧
    haversine lat1 lon1 lat2 lon2 = haversine lat2 lon2 lat1 lon1 ∧
    (-90 < lat1 → lat1 < 90 → -90 < lat2 → lat2 < 90 → |lon2 - lon1| < 360 →
      (haversine lat1 lon1 lat2 lon2 = 0 ↔ lat1 = lat2 ∧ lon1 = lon2)) := by
  refine ⟨haversine_self lat1 lon1, haversine_comm lat1 lon1 lat2 lon2, ?_⟩
  intro hb1 hb2 hb3 hb4 hb5
  have hpi := Real.pi_pos
  constructor
  · intro h0
    have hc1 : 0 < Real.cos (radiansOf lat1) := by
      apply Real.cos_pos_of_mem_Ioo
      rw [Set.mem_Ioo]
      constructor <;> · unfold radiansOf; nlinarith
    have hc2 : 0 < Real.cos (radiansOf lat2) := by
      apply Real.cos_pos_of_mem_Ioo
      rw [Set.mem_Ioo]
      constructor <;> · unfold radiansOf; nlinarith
    have hAnonneg : 0 ≤ havA lat1 lon1 lat2 lon2 := by
      unfold havA
      have hq1 := sq_nonneg (Real.sin (radiansOf (lat2 - lat1) / 2))
      have hq3 : 0 ≤ Real.cos (radiansOf lat1) * Real.cos (radiansOf lat2) *
          Real.sin (radiansOf (lon2 - lon1) / 2) ^ 2 :=
        mul_nonneg (mul_nonneg hc1.le hc2.le) (sq_nonneg _)
      linarith
    have h0' : 6371000 * (2 * arctan2 (Real.sqrt (havA lat1 lon1 lat2 lon2))
        (Real.sqrt (1 - havA lat1 lon1 lat2 lon2))) = 0 := h0
    have hX : arctan2 (Real.sqrt (havA lat1 lon1 lat2 lon2))
        (Real.sqrt (1 - havA lat1 lon1 lat2 lon2)) = 0 := by linarith
    have hA0 : havA lat1 lon1 lat2 lon2 = 0 := by
      by_cases hlt : havA lat1 lon1 lat2 lon2 < 1
      · have hs : 0 < Real.sqrt (1 - havA lat1 lon1 lat2 lon2) :=
          Real.sqrt_pos.mpr (by linarith)
        unfold arctan2 at hX
        rw [if_pos hs] at hX
        rcases div_eq_zero_iff.mp (Real.arctan_eq_zero_iff.mp hX) with h | h
        · have := Real.sqrt_eq_zero'.mp h
          linarith
        · exact absurd h (ne_of_gt hs)
      · push_neg at hlt
        have hz : Real.sqrt (1 - havA lat1 lon1 lat2 lon2) = 0 :=
          Real.sqrt_eq_zero'.mpr (by linarith)
        have hs : 0 < Real.sqrt (havA lat1 lon1 lat2 lon2) :=
          Real.sqrt_pos.mpr (by linarith)
        unfold arctan2 at hX
        rw [hz, if_neg (by norm_num), if_neg (by norm_num), if_pos hs] at hX
        linarith
    unfold havA at hA0
    have hterm2 : 0 ≤ Real.cos (radiansOf lat1) * Real.cos (radiansOf lat2) *
        Real.sin (radiansOf (lon2 - lon1) / 2) ^ 2 :=
      mul_nonneg (mul_nonneg hc1.le hc2.le) (sq_nonneg _)
    have hparts := (add_eq_zero_iff_of_nonneg (sq_nonneg _) hterm2).mp hA0
    have hs1 : Real.sin (radiansOf (lat2 - lat1) / 2) = 0 :=
      (pow_eq_zero_iff two_ne_zero).mp hparts.1
    have hs2 : Real.sin (radiansOf (lon2 - lon1) / 2) = 0 := by
      rcases mul_eq_zero.mp hparts.2 with h | h
      · rcases mul_eq_zero.mp h with h' | h'
        · exact absurd h' (ne_of_gt hc1)
        · exact absurd h' (ne_of_gt hc2)
      · exact (pow_eq_zero_iff two_ne_zero).mp h
    have hang1 : radiansOf (lat2 - lat1) / 2 = 0 := by
      refine (Real.sin_eq_zero_iff_of_lt_of_lt ?_ ?_).mp hs1 <;>
        · unfold radiansOf; nlinarith
    have hang2 : radiansOf (lon2 - lon1) / 2 = 0 := by
      rw [abs_lt] at hb5
      refine (Real.sin_eq_zero_iff_of_lt_of_lt ?_ ?_).mp hs2 <;>
        · unfold radiansOf; nlinarith
    have hlat : lat2 - lat1 = 0 := by
      unfold radiansOf at hang1
      have h' : (lat2 - lat1) * (Real.pi / 180) = 0 := by linarith
      rcases mul_eq_zero.mp h' with h'' | h''
      · exact h''
      · nlinarith
    have hlon : lon2 - lon1 = 0 := by
      unfold radiansOf at hang2
      have h' : (lon2 - lon1) * (Real.pi / 180) = 0 := by linarith
      rcases mul_eq_zero.mp h' with h'' | h''
      · exact h''
      · nlinarith
    exact ⟨by linarith, by linarith⟩
  · rintro ⟨rfl, rfl⟩
    exact haversine_self lat1 lon1

/-- Witness for `haversine_metric_properties` at the coordinate pair
`(0, 0)` against itself. -/
theorem haversine_metric_properties_witness :
    haversine 0 0 0 0 = 0 ∧
    haversine 0 0 0 0 = haversine 0 0 0 0 ∧
    (haversine 0 0 0 0 = 0 ↔ (0 : ℝ) = 0 ∧ (0 : ℝ) = 0) := by
  obtain ⟨h1, h2, h3⟩ := haversine_metric_properties 0 0 0 0
  exact ⟨h1, h2,
    h3 (by norm_num) (by norm_num) (by norm_num) (by norm_num) (by norm_num)⟩

/-- C3: the claim says a path that does not resolve to a readable dataset
yields a recoverable `DataUnavailable` error surfaced to the caller and
never terminates the process.  The code instead catches the read failure,
prints a message and calls `exit(0)`, terminating the process. -/
theorem geoObjectInit_missing_file_exits :
    geoObjectInit none = LoadOutcome.exited 0 := rfl

/-- C2 counterexample: with a loaded layer whose columns do not contain
`"foo"`, filtering on the unknown key `"foo"` does not return the count 0
the claim promises — the lookup raises (a pandas `KeyError`). -/
theorem count_objects_unknown_key_counterexample :
    (count_objects ⟨["fclass", "geometry", "center", "distance"], [], none⟩ ⟨0, 0⟩ 1
        (some [("foo", Val.str "x")])).1 ≠ Except.ok 0 := by
  simp [count_objects, withinRadius, applyFilters, Except.map]

/-- C2 amended: a filter map containing a key that is not a column of the
layer's attribute table makes `count_objects` raise a `KeyError` for the
first such key reached (modelled as `Except.error`); it does not return a
zero count. -/
theorem count_objects_unknown_key_raises (g : GeoLayer) (center : Pt) (radius : ℝ)
    (filters : List (String × Val)) (h : ∃ kv ∈ filters, kv.1 ∉ g.cols) :
    ∃ k, k ∉ g.cols ∧
      (count_objects g center radius (some filters)).1 = Except.error k := by
  obtain ⟨k, hk1, hk2⟩ :=
    applyFilters_error_of_unknown g.cols filters (withinRadius g center radius) h
  exact ⟨k, hk1, by simp [count_objects, hk2, Except.map]⟩

/-- Witness for `count_objects_unknown_key_raises` at a concrete layer,
center, radius and filter map. -/
theorem count_objects_unknown_key_raises_witness :
    ∃ k, k ∉ (["fclass", "geometry", "center", "distance"] : List String) ∧
      (count_objects ⟨["fclass", "geometry", "center", "distance"], [], none⟩ ⟨0, 0⟩ 1
        (some [("foo", Val.str "x")])).1 = Except.error k :=
  count_objects_unknown_key_raises
    ⟨["fclass", "geometry", "center", "distance"], [], none⟩ ⟨0, 0⟩ 1
    [("foo", Val.str "x")] ⟨("foo", Val.str "x"), by simp, by simp⟩

/-- C7 counterexample: a count query does write to the cached dataset —
on a freshly loaded layer (no `distance` column) a single `count_objects`
call leaves the table in a different state, contradicting the claim that
queries leave the loaded table unchanged. -/
theorem count_objects_mutates_state_counterexample :
    (count_objects ⟨["fclass"], [], none⟩ ⟨0, 0⟩ 1 none).2 ≠
      (⟨["fclass"], [], none⟩ : GeoLayer) := by
  simp [count_objects, layerDistances]

/-- C7 amended: each `count_objects` / `find_containing` call rewrites
exactly the `distance` column of its cached table; the feature rows,
columns and grid cells are unchanged by the query. -/
theorem queries_write_only_distance_column (g : GeoLayer) (p : PopGrid)
    (center : Pt) (radius : ℝ) (filters : Option (List (String × Val))) :
    ((count_objects g center radius filters).2.cols = g.cols ∧
     (count_objects g center radius filters).2.rows = g.rows ∧
     (count_objects g center radius filters).2.distance =
       some (layerDistances g center)) ∧
    ((find_containing p center radius).2.cells = p.cells ∧
     (find_containing p center radius).2.distance =
       some (p.cells.map (fun c => haversine center.x center.y c.cx c.cy))) := by
  refine ⟨?_, by simp [find_containing]⟩
  cases filters <;> simp [count_objects]

/-- C4 counterexample: with a single grid cell whose centroid coincides with
the center and the radius `-1/2`, no cell centroid lies within the radius
(all distances are `0 > -1/2`), yet `calculate_population` does not return
the sentinel `1000`: the code truncates the radius with `int()` before the
comparison, so the cell matches `0 ≤ int(-1/2) = 0` and the areal formula
`pi * ((-1/2)/1000)^2 / 1 * 1` is returned instead. -/
theorem calculate_population_radius_truncation_counterexample :
    (∀ c ∈ (⟨[⟨0, 0, 1⟩], none⟩ : PopGrid).cells,
        ¬ haversine (0 : ℝ) 0 c.cx c.cy ≤ (-1/2 : ℝ)) ∧
    (calculate_population ⟨[⟨0, 0, 1⟩], none⟩ ⟨0, 0⟩ (-1/2)).1 ≠ 1000 := by
  have hself : haversine (0 : ℝ) 0 0 0 = 0 := haversine_self 0 0
  have hpy : pyInt (-1/2 : ℝ) = 0 := by
    unfold pyInt
    rw [if_neg (by norm_num)]
    norm_num
  constructor
  · intro c hc
    simp only [List.mem_singleton] at hc
    subst hc
    simp only [hself]
    norm_num
  · have hmat : decide (haversine (0:ℝ) 0 0 0 ≤ ((pyInt (-1/2 : ℝ) : ℤ) : ℝ)) = true := by
      simp [hself, hpy]
    simp only [calculate_population, find_containing, hmat, List.filter_cons,
      List.filter_nil, List.length_cons, List.length_nil]
    norm_num
    nlinarith [Real.pi_le_four, Real.pi_pos]

/-- C4 amended: `calculate_population` returns the sentinel `1000` exactly
when no grid-cell centroid lies within `int(radius)` (the radius truncated
toward zero, as the code passes `int(radius)` to `find_containing`);
otherwise it returns `pi * (radius_km)^2 / matched_cell_count` times the sum
of resident counts over the matched cells. -/
theorem calculate_population_characterization (p : PopGrid) (center : Pt) (radius : ℝ) :
    (calculate_population p center radius).1 =
      if (matchedCells p center radius).length = 0 then 1000
      else Real.pi * (radius / 1000) ^ 2 / ((matchedCells p center radius).length : ℝ) *
        ((matchedCells p center radius).map PopCell.res).sum := by
  have hm : (find_containing p center ((pyInt radius : ℤ) : ℝ)).1 =
      matchedCells p center radius := rfl
  unfold calculate_population
  rw [hm]
  by_cases h : (matchedCells p center radius).length = 0
  · simp [h]
  · simp only [if_neg h]
    ring

/-- C10: with the default `max_count = 20`, the density score is strictly
between 0 and 1 for every count, monotone non-decreasing in the count,
constant from `count = 20` on, and at `count = 0` it is about `0.0067`
(strictly between `0.0066` and `0.0068`), in particular strictly positive. -/
theorem density_score_sigmoid_properties (c1 c2 : ℕ) :
    (0 < densityScore c1 20 ∧ densityScore c1 20 < 1) ∧
    (c1 ≤ c2 → densityScore c1 20 ≤ densityScore c2 20) ∧
    (20 ≤ c1 → densityScore c1 20 = densityScore 20 20) ∧
    (0.0066 < densityScore 0 20 ∧ densityScore 0 20 < 0.0068) := by
  have hexp : ∀ x : ℝ, 0 < 1 + Real.exp x := fun x => by positivity
  refine ⟨⟨?_, ?_⟩, ?_, ?_, ?_⟩
  · unfold densityScore
    positivity
  · unfold densityScore
    rw [div_lt_one (hexp _)]
    nlinarith [Real.exp_pos (-10 * (min ((c1 : ℝ) / 20) 1 - 0.5))]
  · intro hle
    unfold densityScore
    have hmin : min ((c1 : ℝ) / 20) 1 ≤ min ((c2 : ℝ) / 20) 1 := by
      have : (c1 : ℝ) ≤ (c2 : ℝ) := by exact_mod_cast hle
      exact min_le_min (by linarith) le_rfl
    have hE : Real.exp (-10 * (min ((c2 : ℝ) / 20) 1 - 0.5)) ≤
        Real.exp (-10 * (min ((c1 : ℝ) / 20) 1 - 0.5)) :=
      Real.exp_le_exp.mpr (by nlinarith)
    exact one_div_le_one_div_of_le (hexp _) (by linarith)
  · intro h20
    have key : ∀ c : ℕ, 20 ≤ c →
        densityScore c 20 = 1 / (1 + Real.exp (-10 * (1 - 0.5))) := by
      intro c hc
      unfold densityScore
      have hmin : min ((c : ℝ) / ((20 : ℕ) : ℝ)) 1 = 1 := by
        refine min_eq_right ?_
        rw [le_div_iff₀ (by norm_num)]
        have : (20 : ℝ) ≤ (c : ℝ) := by exact_mod_cast hc
        norm_num
        linarith
      rw [hmin]
    rw [key c1 h20, key 20 le_rfl]
  · have hval : densityScore 0 20 = 1 / (1 + Real.exp 5) := by
      unfold densityScore
      norm_num
    have hpow : Real.exp 5 = Real.exp 1 ^ 5 := by
      rw [Real.exp_one_pow]
      norm_num
    have hlo : (148 : ℝ) < Real.exp 5 := by
      rw [hpow]
      calc (148 : ℝ) < 2.7182818283 ^ 5 := by norm_num
        _ < Real.exp 1 ^ 5 :=
            pow_lt_pow_left₀ Real.exp_one_gt_d9 (by norm_num) (by norm_num)
    have hhi : Real.exp 5 < 149 := by
      rw [hpow]
      calc Real.exp 1 ^ 5 < 2.7182818286 ^ 5 :=
            pow_lt_pow_left₀ Real.exp_one_lt_d9 (le_of_lt (Real.exp_pos 1)) (by norm_num)
        _ < 149 := by norm_num
    rw [hval]
    constructor
    · rw [lt_div_iff₀ (hexp 5)]
      nlinarith
    · rw [div_lt_iff₀ (hexp 5)]
      nlinarith

/-- C6 counterexample: a one-row record set whose only indicator column is
`payment_available` (with value 1).  The claim's formula includes the
payment-available mean whenever the column is present, giving score 1, but
`ScoreCalculator.calculate_accessibility_score` in `src/score_calculator.py`
never consults that column and returns 0. -/
theorem accessibility_payment_ignored_counterexample :
    scCalculateAccessibilityScore
        ⟨["payment_available"], [⟨fun _ => 1, fun _ => ""⟩]⟩ ≠
      specAccessibilityScore
        ⟨["payment_available"], [⟨fun _ => 1, fun _ => ""⟩]⟩ := by
  have h1 : scCalculateAccessibilityScore
      ⟨["payment_available"], [⟨fun _ => 1, fun _ => ""⟩]⟩ = 0 := by
    simp [scCalculateAccessibilityScore]
  have h2 : specAccessibilityScore
      ⟨["payment_available"], [⟨fun _ => 1, fun _ => ""⟩]⟩ = 1 := by
    simp [specAccessibilityScore, specIndicators, meanNum]
  rw [h1, h2]
  norm_num

/-- C6 amended: the three-indicator formula of the claim is what the
`parcel_analysis/analysis.py` implementation computes; the
`score_calculator.py` implementation computes the same average restricted to
the 24/7 and easy-access indicators, ignoring `payment_available` even when
that column is present.  Both yield 0 on an empty record set. -/
theorem accessibility_score_characterization (t : RecTable) :
    paCalculateAccessibilityScore t = specAccessibilityScore t ∧
    scCalculateAccessibilityScore t = specAccessibilityScoreNoPayment t := by
  by_cases h0 : t.rows.length = 0
  · simp [paCalculateAccessibilityScore, scCalculateAccessibilityScore,
      specAccessibilityScore, specAccessibilityScoreNoPayment, h0]
  · by_cases h1 : "location_247" ∈ t.cols <;>
      by_cases h2 : "opening_hours" ∈ t.cols <;>
        by_cases h3 : "easy_access_zone" ∈ t.cols <;>
          by_cases h4 : "payment_available" ∈ t.cols <;>
            simp [paCalculateAccessibilityScore, scCalculateAccessibilityScore,
              specAccessibilityScore, specAccessibilityScoreNoPayment,
              specIndicators, specIndicatorsNoPayment, h0, h1, h2, h3, h4] <;>
            ring

lemma bestStep_foldl_spec (score : ℝ → ℝ → ℝ) :
    ∀ (l : List (ℝ × ℝ)) (b0 : Option (ℝ × ℝ) × ℝ),
      (l.foldl (bestStep score) b0 = b0 ∧ ∀ c ∈ l, score c.1 c.2 ≤ b0.2) ∨
      (∃ n : ℕ, ∃ hn : n < l.length,
        l.foldl (bestStep score) b0 = (some l[n], score l[n].1 l[n].2) ∧
        b0.2 < score l[n].1 l[n].2 ∧
        (∀ m : ℕ, ∀ hm : m < l.length, score l[m].1 l[m].2 ≤ score l[n].1 l[n].2) ∧
        (∀ m : ℕ, ∀ hm : m < n, score l[m].1 l[m].2 < score l[n].1 l[n].2)) := by
  intro l
  induction l with
  | nil => exact fun b0 => Or.inl ⟨rfl, by simp⟩
  | cons c rest ih =>
      intro b0
      by_cases hc : score c.1 c.2 > b0.2
      · have hstep : bestStep score b0 c = (some c, score c.1 c.2) := by
          unfold bestStep
          rw [if_pos hc]
        have hfold : (c :: rest).foldl (bestStep score) b0 =
            rest.foldl (bestStep score) (some c, score c.1 c.2) := by
          rw [List.foldl_cons, hstep]
        rcases ih (some c, score c.1 c.2) with ⟨heq, hall⟩ | ⟨n, hn, heq, hgt, hall, hstrict⟩
        · refine Or.inr ⟨0, by simp, ?_, ?_, ?_, ?_⟩
          · rw [hfold, heq]
            simp
          · simpa using hc
          · intro m hm
            match m, hm with
            | 0, _ => simp
            | m + 1, hm =>
                have hm' : m < rest.length := by simpa using hm
                simpa using hall rest[m] (List.getElem_mem hm')
          · intro m hm
            omega
        · refine Or.inr ⟨n + 1, by simpa using hn, ?_, ?_, ?_, ?_⟩
          · rw [hfold, heq]
            simp
          · simp only [List.getElem_cons_succ]
            exact lt_trans hc (by simpa using hgt)
          · intro m hm
            match m, hm with
            | 0, _ =>
                simp only [List.getElem_cons_zero, List.getElem_cons_succ]
                exact le_of_lt (by simpa using hgt)
            | m + 1, hm =>
                simpa using hall m (by simpa using hm)
          · intro m hm
            match m, hm with
            | 0, _ =>
                simp only [List.getElem_cons_zero, List.getElem_cons_succ]
                simpa using hgt
            | m + 1, hm =>
                simpa using hstrict m (by omega)
      · push_neg at hc
        have hstep : bestStep score b0 c = b0 := by
          unfold bestStep
          rw [if_neg (not_lt.mpr hc)]
        have hfold : (c :: rest).foldl (bestStep score) b0 =
            rest.foldl (bestStep score) b0 := by
          rw [List.foldl_cons, hstep]
        rcases ih b0 with ⟨heq, hall⟩ | ⟨n, hn, heq, hgt, hall, hstrict⟩
        · refine Or.inl ⟨by rw [hfold, heq], ?_⟩
          intro x hx
          rcases List.mem_cons.mp hx with h | h
          · rw [h]
            exact hc
          · exact hall x h
        · refine Or.inr ⟨n + 1, by simpa using hn, ?_, ?_, ?_, ?_⟩
          · rw [hfold, heq]
            simp
          · simpa using hgt
          · intro m hm
            match m, hm with
            | 0, _ =>
                simp only [List.getElem_cons_zero, List.getElem_cons_succ]
                exact le_trans hc (le_of_lt (by simpa using hgt))
            | m + 1, hm =>
                simpa using hall m (by simpa using hm)
          · intro m hm
            match m, hm with
            | 0, _ =>
                simp only [List.getElem_cons_zero, List.getElem_cons_succ]
                exact lt_of_le_of_lt hc (by simpa using hgt)
            | m + 1, hm =>
                simpa using hstrict m (by omega)

lemma gridCells_length (latMin latMax lonMin lonMax : ℝ) (gridSize : ℕ) :
    (gridCells latMin latMax lonMin lonMax gridSize).length = gridSize * gridSize := by
  unfold gridCells
  rw [List.length_flatMap]
  have h : (List.length ∘ fun i : ℕ => List.map (fun j : ℕ =>
      (latMin + (i : ℝ) * gridStep latMin latMax gridSize,
       lonMin + (j : ℝ) * gridStep lonMin lonMax gridSize)) (List.range gridSize)) =
      fun _ : ℕ => gridSize := by
    funext i
    simp
  rw [h, List.map_const', List.sum_replicate, smul_eq_mul, List.length_range]

/-- C9: `find_optimal_location` scans the `gridSize x gridSize` lattice in
row-major order (latitude index outer, longitude index inner) and — as long
as every cell's score exceeds the `-1` initialization, which holds for the
composite overall score — returns the cell with the strictly highest score.
On ties the first cell in row-major order wins, because the code's
comparison is the strict `score > best_score`: the returned index `n`
satisfies `score(cell m) ≤ score(cell n)` for every `m`, strictly for every
`m < n`. -/
theorem find_optimal_location_first_argmax (score : ℝ → ℝ → ℝ)
    (latMin latMax lonMin lonMax : ℝ) (gridSize : ℕ)
    (hpos : ∀ c ∈ gridCells latMin latMax lonMin lonMax gridSize, -1 < score c.1 c.2)
    (hg : 1 ≤ gridSize) :
    ∃ n : ℕ, ∃ hn : n < (gridCells latMin latMax lonMin lonMax gridSize).length,
      (findOptimalLocation score latMin latMax lonMin lonMax gridSize).1 =
        some (gridCells latMin latMax lonMin lonMax gridSize)[n] ∧
      (findOptimalLocation score latMin latMax lonMin lonMax gridSize).2 =
        score (gridCells latMin latMax lonMin lonMax gridSize)[n].1
          (gridCells latMin latMax lonMin lonMax gridSize)[n].2 ∧
      (∀ m : ℕ, ∀ hm : m < (gridCells latMin latMax lonMin lonMax gridSize).length,
        score (gridCells latMin latMax lonMin lonMax gridSize)[m].1
            (gridCells latMin latMax lonMin lonMax gridSize)[m].2 ≤
          score (gridCells latMin latMax lonMin lonMax gridSize)[n].1
            (gridCells latMin latMax lonMin lonMax gridSize)[n].2) ∧
      (∀ m : ℕ, ∀ hm : m < n,
        score (gridCells latMin latMax lonMin lonMax gridSize)[m].1
            (gridCells latMin latMax lonMin lonMax gridSize)[m].2 <
          score (gridCells latMin latMax lonMin lonMax gridSize)[n].1
            (gridCells latMin latMax lonMin lonMax gridSize)[n].2) := by
  have hlen : 0 < (gridCells latMin latMax lonMin lonMax gridSize).length := by
    rw [gridCells_length]
    nlinarith
  rcases bestStep_foldl_spec score (gridCells latMin latMax lonMin lonMax gridSize)
      (none, -1) with ⟨_, hall⟩ | ⟨n, hn, heq, _, hall, hstrict⟩
  · exfalso
    have hmem := List.getElem_mem hlen
    exact absurd (hall _ hmem) (not_le.mpr (hpos _ hmem))
  · refine ⟨n, hn, ?_, ?_, hall, hstrict⟩
    · unfold findOptimalLocation
      rw [heq]
    · unfold findOptimalLocation
      rw [heq]

/-- Witness for `find_optimal_location_first_argmax`: the constant-zero
score on a 3x3 grid over the unit box; every cell ties, so the first
row-major cell is returned. -/
theorem find_optimal_location_first_argmax_witness :
    ∃ n : ℕ, ∃ hn : n < (gridCells 0 1 0 1 3).length,
      (findOptimalLocation (fun _ _ => (0 : ℝ)) 0 1 0 1 3).1 =
        some (gridCells 0 1 0 1 3)[n] ∧
      (findOptimalLocation (fun _ _ => (0 : ℝ)) 0 1 0 1 3).2 = 0 ∧
      (∀ m : ℕ, ∀ hm : m < (gridCells 0 1 0 1 3).length, (0 : ℝ) ≤ 0) ∧
      (∀ m : ℕ, ∀ hm : m < n, (0 : ℝ) < 0) :=
  find_optimal_location_first_argmax (fun _ _ => 0) 0 1 0 1 3
    (fun _ _ => by norm_num) (by norm_num)

lemma sortedPairs_perm (coords : List Pt) (p : Pt) :
    List.Perm (sortedPairs coords p)
      (coords.enum.map (fun ic => (euclid p ic.2, ic.1))) :=
  List.mergeSort_perm _ _

lemma sortedPairs_length (coords : List Pt) (p : Pt) :
    (sortedPairs coords p).length = coords.length := by
  rw [(sortedPairs_perm coords p).length_eq, List.length_map, List.enum_length]

lemma sortedPairs_pairwise (coords : List Pt) (p : Pt) :
    (sortedPairs coords p).Pairwise (fun a b : ℝ × ℕ => a.1 ≤ b.1) := by
  unfold sortedPairs
  have h := @List.sorted_mergeSort (ℝ × ℕ) (fun a b => decide (a.1 ≤ b.1))
    (fun a b c hab hbc => by
      rw [decide_eq_true_eq] at hab hbc ⊢
      exact le_trans hab hbc)
    (fun a b => by
      rw [Bool.or_eq_true, decide_eq_true_eq, decide_eq_true_eq]
      exact le_total a.1 b.1)
    (coords.enum.map (fun ic => (euclid p ic.2, ic.1)))
  exact h.imp (fun hab => by rwa [decide_eq_true_eq] at hab)

lemma mem_sortedPairs (coords : List Pt) (p : Pt) (di : ℝ × ℕ) :
    di ∈ sortedPairs coords p ↔
      ∃ h : di.2 < coords.length, di.1 = euclid p (coords.get ⟨di.2, h⟩) := by
  rw [(sortedPairs_perm coords p).mem_iff, List.mem_map]
  constructor
  · rintro ⟨ic, hic, rfl⟩
    rw [List.mem_enum_iff_getElem?] at hic
    rcases List.getElem?_eq_some_iff.mp hic with ⟨hlt, hval⟩
    exact ⟨hlt, by rw [List.get_eq_getElem, hval]⟩
  · rintro ⟨h, hval⟩
    refine ⟨(di.2, coords.get ⟨di.2, h⟩), ?_, ?_⟩
    · rw [List.mem_enum_iff_getElem?]
      simp [List.getElem?_eq_getElem h]
    · rw [← hval]

lemma sortedPairs_map_snd_nodup (coords : List Pt) (p : Pt) :
    ((sortedPairs coords p).map Prod.snd).Nodup := by
  have hperm : List.Perm ((sortedPairs coords p).map Prod.snd)
      ((coords.enum.map (fun ic => (euclid p ic.2, ic.1))).map Prod.snd) :=
    (sortedPairs_perm coords p).map Prod.snd
  have heq : (coords.enum.map (fun ic => (euclid p ic.2, ic.1))).map Prod.snd =
      List.range coords.length := by
    rw [List.map_map, ← List.enum_map_fst coords]
    rfl
  rw [heq] at hperm
  exact hperm.symm.nodup (List.nodup_range _)

lemma sortedPairs_take_closest (coords : List Pt) (p : Pt) (k j : ℕ)
    (hj : j < coords.length)
    (hnot : j ∉ ((sortedPairs coords p).take k).map Prod.snd) :
    ∀ di ∈ (sortedPairs coords p).take k, di.1 ≤ euclid p (coords.get ⟨j, hj⟩) := by
  have hpj : ((euclid p (coords.get ⟨j, hj⟩), j) : ℝ × ℕ) ∈ sortedPairs coords p :=
    (mem_sortedPairs coords p _).mpr ⟨hj, rfl⟩
  have hpj2 : ((euclid p (coords.get ⟨j, hj⟩), j) : ℝ × ℕ) ∉
      (sortedPairs coords p).take k := fun hmem =>
    hnot (List.mem_map_of_mem Prod.snd hmem)
  have hpj3 : ((euclid p (coords.get ⟨j, hj⟩), j) : ℝ × ℕ) ∈
      (sortedPairs coords p).drop k := by
    have hsplit : ((euclid p (coords.get ⟨j, hj⟩), j) : ℝ × ℕ) ∈
        (sortedPairs coords p).take k ++ (sortedPairs coords p).drop k := by
      rw [List.take_append_drop]
      exact hpj
    rcases List.mem_append.mp hsplit with h | h
    · exact absurd h hpj2
    · exact h
  have hPW : List.Pairwise (fun a b : ℝ × ℕ => a.1 ≤ b.1)
      ((sortedPairs coords p).take k ++ (sortedPairs coords p).drop k) := by
    rw [List.take_append_drop]
    exact sortedPairs_pairwise coords p
  intro di hdi
  exact (List.pairwise_append.mp hPW).2.2 di hdi _ hpj3

/-- C5 counterexample: on a one-point dataset, the
`parcel_analysis/core.py` version of `_get_nearest_points` queries the tree
with `k = 5` unclamped, and sklearn raises (`none`) instead of returning the
single point — contradicting the claim that when `N < k` all `N` points are
returned rather than failing. -/
theorem core_get_nearest_points_fails_counterexample :
    coreGetNearestPoints [⟨0, 0⟩] 0 0 5 = none := by
  unfold coreGetNearestPoints kdQuery
  rw [if_neg]
  intro h
  simp at h

/-- C5 amended: the `score_calculator.py` version of `_get_nearest_points`
(which clamps `k` to `min(k, N)`) returns the `min(k, N)` closest points by
Euclidean distance in coordinate space, in ascending order with their
(pairwise distinct) indices — in particular all `N` points when `N < k`;
the `parcel_analysis/core.py` version passes `k` unclamped and fails
(sklearn `ValueError`) whenever `N < k`. -/
theorem get_nearest_points_characterization (coords : List Pt) (lon lat : ℝ) (k : ℕ)
    (hk : 1 ≤ k) (hN : 1 ≤ coords.length) :
    (∃ l, scGetNearestPoints coords lon lat k = some l ∧
      l.length = min k coords.length ∧
      l.Pairwise (fun a b : ℝ × ℕ => a.1 ≤ b.1) ∧
      (∀ di ∈ l, ∃ h : di.2 < coords.length,
        di.1 = euclid ⟨lon, lat⟩ (coords.get ⟨di.2, h⟩)) ∧
      (l.map Prod.snd).Nodup ∧
      (∀ j : ℕ, ∀ hj : j < coords.length, j ∉ l.map Prod.snd →
        ∀ di ∈ l, di.1 ≤ euclid ⟨lon, lat⟩ (coords.get ⟨j, hj⟩))) ∧
    (coords.length < k → coreGetNearestPoints coords lon lat k = none) := by
  constructor
  · refine ⟨(sortedPairs coords ⟨lon, lat⟩).take (min k coords.length),
      ?_, ?_, ?_, ?_, ?_, ?_⟩
    · unfold scGetNearestPoints kdQuery
      rw [if_pos ⟨le_min hk hN, min_le_right _ _⟩]
    · rw [List.length_take, sortedPairs_length]
      exact min_eq_left (min_le_right _ _)
    · exact List.Pairwise.sublist (List.take_sublist _ _)
        (sortedPairs_pairwise coords ⟨lon, lat⟩)
    · intro di hdi
      exact (mem_sortedPairs coords ⟨lon, lat⟩ di).mp
        ((List.take_sublist _ _).subset hdi)
    · rw [List.map_take]
      exact (List.take_sublist _ _).nodup (sortedPairs_map_snd_nodup coords ⟨lon, lat⟩)
    · intro j hj hnot di hdi
      exact sortedPairs_take_closest coords ⟨lon, lat⟩ (min k coords.length) j hj hnot di hdi
  · intro hlt
    unfold coreGetNearestPoints kdQuery
    rw [if_neg]
    rintro ⟨-, h2⟩
    omega

/-- Witness for `get_nearest_points_characterization` on the one-point
dataset with `k = 5`. -/
theorem get_nearest_points_characterization_witness :
    (∃ l, scGetNearestPoints [(⟨0, 0⟩ : Pt)] 0 0 5 = some l ∧
      l.length = min 5 [(⟨0, 0⟩ : Pt)].length ∧
      l.Pairwise (fun a b : ℝ × ℕ => a.1 ≤ b.1) ∧
      (∀ di ∈ l, ∃ h : di.2 < [(⟨0, 0⟩ : Pt)].length,
        di.1 = euclid ⟨0, 0⟩ ([(⟨0, 0⟩ : Pt)].get ⟨di.2, h⟩)) ∧
      (l.map Prod.snd).Nodup ∧
      (∀ j : ℕ, ∀ hj : j < [(⟨0, 0⟩ : Pt)].length, j ∉ l.map Prod.snd →
        ∀ di ∈ l, di.1 ≤ euclid ⟨0, 0⟩ ([(⟨0, 0⟩ : Pt)].get ⟨j, hj⟩))) ∧
    ([(⟨0, 0⟩ : Pt)].length < 5 → coreGetNearestPoints [(⟨0, 0⟩ : Pt)] 0 0 5 = none) :=
  get_nearest_points_characterization [⟨0, 0⟩] 0 0 5 (by norm_num) (by norm_num)

/-- Witness for `density_score_sigmoid_properties` at counts 20 and 21. -/
theorem density_score_sigmoid_properties_witness :
    (0 < densityScore 20 20 ∧ densityScore 20 20 < 1) ∧
    densityScore 20 20 ≤ densityScore 21 20 ∧
    densityScore 20 20 = densityScore 20 20 ∧
    (0.0066 < densityScore 0 20 ∧ densityScore 0 20 < 0.0068) := by
  obtain ⟨h1, h2, h3, h4⟩ := density_score_sigmoid_properties 20 21
  exact ⟨h1, h2 (by norm_num), h3 (by norm_num), h4⟩

end SGH
